import Mathlib

/-!
Shallow embedding of the query generation/validation core of the Saas_rag
repository (backend/app): the query validator
(`app/services/query_validator.py`), the query cleaner
(`app/utils/query_cleaner.py`), the schema relevance store
(`app/services/schema_store.py`) and the self-correcting agent loop
(`app/agents/sql_agent.py`).

Python strings are modelled as `List Char`; all text manipulation is done
on character lists so that every definition is executable.  Third-party
library behaviour (the `sqlparse` statement splitter, Python `re` searches
for the fixed pattern set, `json.loads`/`json.dumps`) is modelled at the
level of detail the validated code observes; the modelling scope of each
such definition is stated in its doc comment.
-/

namespace SaasRag

/-- Whitespace characters stripped by Python `str.strip()` (ASCII subset;
the unicode whitespace range is out of scope for the queries handled
here). -/
def pyIsSpace (c : Char) : Bool :=
  c == ' ' || c == '\t' || c == '\n' || c == '\r' || c == '\x0b' || c == '\x0c'

/-- Characters matched by the regex class `\w` (`[A-Za-z0-9_]`). -/
def isWordChar (c : Char) : Bool :=
  (c ≥ 'a' && c ≤ 'z') || (c ≥ 'A' && c ≤ 'Z') || (c ≥ '0' && c ≤ '9') || c == '_'

/-- Characters matched by the regex class `\d`. -/
def isDigitChar (c : Char) : Bool := c ≥ '0' && c ≤ '9'

/-- Python `str.upper()` on a character list (ASCII case mapping, which is
what `Char.toUpper` implements and what the queries at issue use). -/
def upperL (cs : List Char) : List Char := cs.map Char.toUpper

/-- Python `str.lower()` on a character list. -/
def lowerL (cs : List Char) : List Char := cs.map Char.toLower

/-- Python `str.strip()`: drop leading and trailing whitespace. -/
def pyStripL (cs : List Char) : List Char :=
  ((cs.dropWhile pyIsSpace).reverse.dropWhile pyIsSpace).reverse

/-- Python `str.strip()` packaged for `String`. -/
def pyStrip (s : String) : String := String.mk (pyStripL s.data)

/-- The single-quote character, used when rendering Python `repr`-style
strings. -/
def squoteChar : Char := Char.ofNat 39

/-- A single-quote as a one character string. -/
def squote : String := String.singleton squoteChar

end SaasRag

namespace SaasRag

/-- Atoms of the fixed regular expressions used by the validator and the
cleaner.  Only the constructs appearing in `QueryValidator.DANGEROUS_PATTERNS`
and `QueryCleaner._validate_sql_format` are needed: case-insensitive
literals, `\s*`, `\s+`, `\w+` and `\d+`.  For this pattern set a greedy
left-to-right match is equivalent to Python `re` semantics, because every
repetition is followed by a literal that its character class cannot
match. -/
inductive PatAtom
  | lit (s : List Char)
  | wsStar
  | wsPlus
  | wordPlus
  | digitPlus
deriving Repr, DecidableEq

/-- Case-insensitive literal prefix test (`re.IGNORECASE`). -/
def ciIsPrefix (pat cs : List Char) : Bool :=
  upperL (cs.take pat.length) == upperL pat && pat.length ≤ cs.length

/-- Match a sequence of pattern atoms at the start of `cs`. -/
def matchAtoms : List PatAtom → List Char → Bool
  | [], _ => true
  | .lit s :: ps, cs =>
      if ciIsPrefix s cs then matchAtoms ps (cs.drop s.length) else false
  | .wsStar :: ps, cs => matchAtoms ps (cs.dropWhile pyIsSpace)
  | .wsPlus :: ps, cs =>
      match cs with
      | c :: rest => if pyIsSpace c then matchAtoms ps (rest.dropWhile pyIsSpace) else false
      | [] => false
  | .wordPlus :: ps, cs =>
      match cs with
      | c :: rest => if isWordChar c then matchAtoms ps (rest.dropWhile isWordChar) else false
      | [] => false
  | .digitPlus :: ps, cs =>
      match cs with
      | c :: rest => if isDigitChar c then matchAtoms ps (rest.dropWhile isDigitChar) else false
      | [] => false

/-- Model of `re.search`: try the pattern at every position. -/
def searchAtoms (p : List PatAtom) : List Char → Bool
  | [] => matchAtoms p []
  | c :: rest => matchAtoms p (c :: rest) || searchAtoms p rest

/-- Boolean substring test, modelling the Python `in` operator on
strings. -/
def isSubL (pat : List Char) : List Char → Bool
  | [] => pat.isEmpty
  | c :: rest => pat.isPrefixOf (c :: rest) || isSubL pat rest

end SaasRag

namespace SaasRag.QueryValidator

/-- `QueryValidator.ALLOWED_STATEMENTS` from `query_validator.py`. -/
def ALLOWED_STATEMENTS : List String :=
  ["SELECT", "EXPLAIN", "DESCRIBE", "SHOW", "WITH"]

/-- `QueryValidator.FORBIDDEN_KEYWORDS` from `query_validator.py` (written
in source order; Python stores them in a `set`, but no claim depends on
iteration order). -/
def FORBIDDEN_KEYWORDS : List String :=
  ["INSERT", "UPDATE", "DELETE", "DROP", "CREATE", "ALTER", "TRUNCATE",
   "GRANT", "REVOKE", "EXEC", "EXECUTE", "MERGE", "UPSERT", "REPLACE"]

/-- Source text of the seventh dangerous pattern,
`r'OR\s+\'\w+\'\s*=\s*\'\w+\''`, assembled around the quote character. -/
def orPatternSrc : String :=
  "OR\\s+\\" ++ squote ++ "\\w+\\" ++ squote ++ "\\s*=\\s*\\" ++ squote ++ "\\w+\\" ++ squote

/-- `QueryValidator.DANGEROUS_PATTERNS`: each entry is the Python source
text of the regex (used verbatim in the produced error message) together
with its translation into pattern atoms. -/
def DANGEROUS_PATTERNS : List (String × List PatAtom) :=
  [(";\\s*DROP\\s+", [.lit [';'], .wsStar, .lit "DROP".data, .wsPlus]),
   (";\\s*DELETE\\s+", [.lit [';'], .wsStar, .lit "DELETE".data, .wsPlus]),
   ("--", [.lit ['-', '-']]),
   ("/\\*", [.lit ['/', '*']]),
   ("UNION\\s+SELECT", [.lit "UNION".data, .wsPlus, .lit "SELECT".data]),
   ("1\\s*=\\s*1", [.lit ['1'], .wsStar, .lit ['='], .wsStar, .lit ['1']]),
   (orPatternSrc,
    [.lit "OR".data, .wsPlus, .lit [squoteChar], .wordPlus, .lit [squoteChar],
     .wsStar, .lit ['='], .wsStar, .lit [squoteChar], .wordPlus, .lit [squoteChar]])]

/-- `ValidationResult` dataclass of `query_validator.py`. -/
structure ValidationResult where
  is_valid : Bool
  errors : List String
  warnings : List String
  normalized_query : String
deriving Repr, DecidableEq

/-- Model of the `sqlparse` statement splitter on one lexed chunk,
mirroring the `consume_ws` mechanism of `StatementSplitter`: statements
are separated at `;`, whitespace following a `;` is consumed into the
preceding statement, and a new statement starts at the next character
that is not whitespace.  The arguments are the remaining input, the
current statement accumulator (reversed) and the consume-whitespace flag.
Semicolons inside string literals or comments are out of the modelled
scope (the validator rejects comment markers separately, and no claim
exercises quoted semicolons). -/
def splitStmts : List Char → List Char → Bool → List (List Char)
  | [], acc, _ => [acc.reverse]
  | c :: rest, acc, true =>
      if pyIsSpace c then splitStmts rest (c :: acc) true
      else acc.reverse :: splitStmts rest [c] false
  | c :: rest, acc, false =>
      if c == ';' then splitStmts rest (c :: acc) true
      else splitStmts rest (c :: acc) false

/-- Model of `sqlparse.parse`, returning the list of statement texts
(`parse("")` yields no statements). -/
def sqlparse_parse (cs : List Char) : List (List Char) :=
  if cs.isEmpty then [] else splitStmts cs [] false

/-- Maximal runs of `\w` word characters, used to model keyword lookup in
the `sqlparse` token stream. -/
def wordRuns : List Char → List Char → List (List Char)
  | [], cur => if cur.isEmpty then [] else [cur.reverse]
  | c :: rest, cur =>
      if isWordChar c then wordRuns rest (c :: cur)
      else if cur.isEmpty then wordRuns rest []
      else cur.reverse :: wordRuns rest []

/-- Keywords recognised by the `sqlparse` lexer that can occur in the
queries at issue.  `QueryValidator._get_first_keyword` walks the token
stream and returns the first token whose type is in the `Keyword` family;
at the granularity of this model that is the first word of the statement
that the lexer classifies as a keyword rather than as a name. -/
def SQLPARSE_KEYWORDS : List String :=
  ["SELECT", "INSERT", "UPDATE", "DELETE", "DROP", "CREATE", "ALTER",
   "TRUNCATE", "GRANT", "REVOKE", "EXEC", "EXECUTE", "MERGE", "UPSERT",
   "REPLACE", "WITH", "EXPLAIN", "DESCRIBE", "SHOW", "FROM", "WHERE",
   "LIMIT", "ORDER", "GROUP", "BY", "HAVING", "JOIN", "INNER", "LEFT",
   "RIGHT", "OUTER", "ON", "AND", "OR", "NOT", "NULL", "AS", "DISTINCT",
   "UNION", "ALL", "SET", "VALUES", "INTO", "TABLE", "OFFSET", "BETWEEN",
   "LIKE", "IN", "IS", "CASE", "WHEN", "THEN", "ELSE", "END"]

/-- Model of `QueryValidator._get_first_keyword`: the first word of the
statement that the lexer classifies as a keyword (original case is
preserved, as the Python code returns `token.value`). -/
def _get_first_keyword (stmt : List Char) : Option (List Char) :=
  (wordRuns stmt []).find? (fun w =>
    SQLPARSE_KEYWORDS.any (fun kw => kw.data == upperL w))

/-- Model of `QueryValidator._extract_tables`: the Python code collects
`Name`-typed tokens from the (grouped) token stream; at the granularity of
this model those are the word runs the lexer does not classify as keywords
and that do not start with a digit.  Only the table-whitelist layer
(inactive in the agent, which constructs `QueryValidator()` with an empty
whitelist) consumes this. -/
def _extract_tables (stmt : List Char) : List (List Char) :=
  (wordRuns stmt []).filter (fun w =>
    !(SQLPARSE_KEYWORDS.any (fun kw => kw.data == upperL w)) &&
    !(match w with | c :: _ => isDigitChar c | [] => true))

/-- Model of `sqlparse.format(query, reindent=True, keyword_case='upper')`.
The formatter is third-party pretty-printing whose output text no claim
inspects (the agent only forwards it); it is modelled as the identity on
the already-validated text. -/
def sqlparse_format (cs : List Char) : List Char := cs

/-- Model of `QueryValidator.validate` (`query_validator.py`, lines
64-147) for a validator constructed with the given table whitelist.  The
`db_type` argument is accepted and ignored exactly as in the source. -/
def validate (allowed_tables : List String) (query : String)
    (db_type : String := "postgresql") : ValidationResult :=
  let _ := db_type
  if (pyStripL query.data).isEmpty then
    ⟨false, ["Empty query"], [], ""⟩
  else
    let qs := pyStripL query.data
    let parsed := sqlparse_parse qs
    if parsed.isEmpty then
      ⟨false, ["Failed to parse SQL query"], [], String.mk qs⟩
    else if 1 < parsed.length then
      ⟨false, ["Multiple SQL statements detected. Only single statements allowed."],
       [], String.mk qs⟩
    else
      match _get_first_keyword qs with
      | none => ⟨false, ["Could not identify SQL statement type"], [], String.mk qs⟩
      | some tok =>
        if !(ALLOWED_STATEMENTS.any (fun a => a.data == upperL tok)) then
          ⟨false, [s!"Forbidden SQL operation: {String.mk tok}. Only read-only queries allowed."],
           [], String.mk qs⟩
        else
          let query_upper := upperL qs
          match FORBIDDEN_KEYWORDS.find? (fun kw => isSubL kw.data query_upper) with
          | some kw =>
            ⟨false, [s!"Query contains forbidden keyword: {kw}"], [], String.mk qs⟩
          | none =>
            match DANGEROUS_PATTERNS.find? (fun p => searchAtoms p.2 qs) with
            | some p =>
              let src := p.1
              ⟨false, [s!"Potential SQL injection pattern detected: {src}"],
               [], String.mk qs⟩
            | none =>
              let errors :=
                if allowed_tables.isEmpty then []
                else (_extract_tables qs).filterMap (fun t =>
                  if allowed_tables.any (fun a => lowerL a.data == lowerL t) then none
                  else some s!"Table not in whitelist: {String.mk t}")
              let warnings :=
                if !(isSubL "LIMIT".data query_upper) then
                  ["Query missing LIMIT clause. May return large result sets."]
                else []
              ⟨errors.isEmpty, errors, warnings, String.mk (sqlparse_format qs)⟩

end SaasRag.QueryValidator

namespace SaasRag

/-- Opening curly brace character. -/
def obraceChar : Char := Char.ofNat 123

/-- Closing curly brace character. -/
def cbraceChar : Char := Char.ofNat 125

/-- Opening curly brace as a string. -/
def obrace : String := String.singleton obraceChar

/-- Closing curly brace as a string. -/
def cbrace : String := String.singleton cbraceChar

/-- Split a character list at the first occurrence of `needle`, returning
the text before and the text after the occurrence.  Models Python
`str.find`-based slicing and the leftmost-match rule of `re.search` for a
literal. -/
def splitAtSub (needle : List Char) : List Char → Option (List Char × List Char)
  | [] => if needle.isEmpty then some ([], []) else none
  | c :: rest =>
      if needle.isPrefixOf (c :: rest) then some ([], (c :: rest).drop needle.length)
      else
        match splitAtSub needle rest with
        | some (pre, post) => some (c :: pre, post)
        | none => none

/-- Case-insensitive variant of `splitAtSub` (`re.IGNORECASE`). -/
def ciSplitAtSub (needle : List Char) : List Char → Option (List Char × List Char)
  | [] => if needle.isEmpty then some ([], []) else none
  | c :: rest =>
      if ciIsPrefix needle (c :: rest) then some ([], (c :: rest).drop needle.length)
      else
        match ciSplitAtSub needle rest with
        | some (pre, post) => some (c :: pre, post)
        | none => none

/-- Split on a separator character; the result is always non-empty, as
with Python `str.split(sep)`. -/
def splitOnChar (sep : Char) : List Char → List (List Char)
  | [] => [[]]
  | c :: rest =>
      let r := splitOnChar sep rest
      if c == sep then [] :: r
      else
        match r with
        | x :: xs => (c :: x) :: xs
        | [] => [[c]]

/-- Join with a separator character, modelling Python `sep.join`. -/
def joinChar (sep : Char) (lines : List (List Char)) : List Char :=
  List.intercalate [sep] lines

end SaasRag

namespace SaasRag.QueryCleaner

/-- Model of one fenced-block pattern
`re.search(r'```TAG\s*\n(.*?)\n```', text, re.DOTALL | re.IGNORECASE)`:
after the literal ```` ```TAG ````, the greedy `\s*` with backtracking ends
at the last newline of the following whitespace run, the non-greedy
capture then runs to the first subsequent ``` `\n```` ```` fence, and the
captured group is stripped.  As in `QueryCleaner._extract_from_markdown`,
only the leftmost occurrence of the opening fence is tried. -/
def mdFencePattern (tag : List Char) (cs : List Char) : Option (List Char) :=
  match ciSplitAtSub ("```".data ++ tag) cs with
  | none => none
  | some (_, rest) =>
      let ws := rest.takeWhile pyIsSpace
      if ws.contains '\n' then
        let body := (ws.reverse.takeWhile (fun c => c != '\n')).reverse ++
          rest.dropWhile pyIsSpace
        match splitAtSub ['\n', '`', '`', '`'] body with
        | some (content, _) => some (pyStripL content)
        | none => none
      else none

/-- Model of the inline-code pattern `re.search(r'`(.*?)`', text)`: the
capture between the first backtick and the next one, stripped. -/
def mdInlinePattern (cs : List Char) : Option (List Char) :=
  match splitAtSub ['`'] cs with
  | none => none
  | some (_, rest) =>
      match splitAtSub ['`'] rest with
      | some (content, _) => some (pyStripL content)
      | none => none

/-- Model of `QueryCleaner._extract_from_markdown`: the four patterns are
tried in source order and the first match wins; with no match the text
passes through unchanged. -/
def _extract_from_markdown (cs : List Char) : List Char :=
  match mdFencePattern "sql".data cs with
  | some r => r
  | none =>
    match mdFencePattern "json".data cs with
    | some r => r
    | none =>
      match mdFencePattern [] cs with
      | some r => r
      | none =>
        match mdInlinePattern cs with
        | some r => r
        | none => cs

/-- Truncate one line at its first `--`, modelling
`re.sub(r'--.*$', '', query, flags=re.MULTILINE)` on that line. -/
def stripLineComment (line : List Char) : List Char :=
  match splitAtSub ['-', '-'] line with
  | some (pre, _) => pre
  | none => line

/-- Remove every non-overlapping `/* ... */` block, modelling
`re.sub(r'/\*.*?\*/', '', query, flags=re.DOTALL)`; an unterminated
opening marker matches nothing and is left in place. -/
def removeBlockComments : Nat → List Char → List Char
  | 0, cs => cs
  | fuel + 1, cs =>
      match splitAtSub ['/', '*'] cs with
      | none => cs
      | some (pre, rest) =>
          match splitAtSub ['*', '/'] rest with
          | none => cs
          | some (_, rest2) => pre ++ removeBlockComments fuel rest2

/-- Model of `QueryCleaner._remove_sql_comments`: line comments first,
then block comments. -/
def _remove_sql_comments (cs : List Char) : List Char :=
  let noLine := joinChar '\n' ((splitOnChar '\n' cs).map stripLineComment)
  removeBlockComments (noLine.length + 1) noLine

/-- SQL keywords recognised at line starts by
`QueryCleaner._strip_explanations`. -/
def sql_keywords : List String := ["SELECT", "WITH", "EXPLAIN", "DESCRIBE", "SHOW"]

/-- Whether a line starts (after stripping, case-insensitively) with a
recognised statement keyword. -/
def lineStartsWithKeyword (line : List Char) : Bool :=
  let s := upperL (pyStripL line)
  sql_keywords.any (fun kw => kw.data.isPrefixOf s)

/-- Whether a line counts as trailing content for
`QueryCleaner._strip_explanations`: non-blank after stripping and not a
line comment. -/
def isContentLine (line : List Char) : Bool :=
  let l := pyStripL line
  !l.isEmpty && !(['-', '-'].isPrefixOf l)

/-- Index of the last content line, if any. -/
def lastContentRel : List (List Char) → Option Nat
  | [] => none
  | l :: ls =>
      match lastContentRel ls with
      | some j => some (j + 1)
      | none => if isContentLine l then some 0 else none

/-- Model of `QueryCleaner._strip_explanations`: drop leading lines before
the first statement-keyword line (default: keep from the first line) and
trailing lines after the last content line. -/
def _strip_explanations (cs : List Char) : List Char :=
  let lines := splitOnChar '\n' cs
  let start := (lines.findIdx? lineStartsWithKeyword).getD 0
  let endIdx :=
    match lastContentRel (lines.drop start) with
    | some j => start + j + 1
    | none => lines.length
  joinChar '\n' ((lines.drop start).take (endIdx - start))

/-- Allowed leading keywords in `QueryCleaner._validate_sql_format`. -/
def allowed_starts : List String := ["SELECT", "WITH", "EXPLAIN", "DESCRIBE", "SHOW"]

/-- Model of `QueryCleaner._validate_sql_format`: the plausibility check
of the cleaner. -/
def _validate_sql_format (cs : List Char) : Bool :=
  if cs.isEmpty then false
  else
    let query_upper := pyStripL (upperL cs)
    if !(allowed_starts.any (fun kw => kw.data.isPrefixOf query_upper)) then false
    else if isSubL "SELECT".data query_upper && !(isSubL "FROM".data query_upper) then
      searchAtoms [.lit "SELECT".data, .wsPlus, .digitPlus] query_upper
    else true

/-- Model of `QueryCleaner.clean_sql_query` (`query_cleaner.py`, lines
22-47): the ordered, total cleaning pipeline for the relational
dialect. -/
def clean_sql_query (raw_query : String) : String × Bool :=
  if raw_query.data.isEmpty then ("", false)
  else
    let q0 := pyStripL raw_query.data
    let q1 := _extract_from_markdown q0
    let q2 := _remove_sql_comments q1
    let q3 := _strip_explanations q2
    (String.mk (pyStripL q3), _validate_sql_format q3)

end SaasRag.QueryCleaner

namespace SaasRag

/-- JSON values, as produced by Python `json.loads` (numeric literals are
modelled as integers; the queries at issue contain no floats). -/
inductive JsonValue where
  | null
  | bool (b : Bool)
  | num (n : Int)
  | str (s : String)
  | arr (elems : List JsonValue)
  | obj (members : List (String × JsonValue))
deriving Repr

/-- Parse a JSON string body after the opening double quote.  Common
escapes are handled; `\uXXXX`, `\b` and `\f` are out of the modelled
scope and make the parse fail. -/
def parseStringLit : List Char → Option (String × List Char)
  | [] => none
  | c :: rest =>
      if c == '"' then some ("", rest)
      else if c == '\\' then
        match rest with
        | [] => none
        | e :: rest2 =>
          let dc : Option Char :=
            if e == 'n' then some '\n'
            else if e == 't' then some '\t'
            else if e == 'r' then some '\r'
            else if e == '"' then some '"'
            else if e == '\\' then some '\\'
            else if e == '/' then some '/'
            else none
          match dc with
          | some d =>
            match parseStringLit rest2 with
            | some (s, r) => some (String.mk (d :: s.data), r)
            | none => none
          | none => none
      else
        match parseStringLit rest with
        | some (s, r) => some (String.mk (c :: s.data), r)
        | none => none

/-- Parse a non-empty digit run into a natural number. -/
def parseDigits (cs : List Char) : Option (Nat × List Char) :=
  let ds := cs.takeWhile isDigitChar
  if ds.isEmpty then none
  else some (ds.foldl (fun acc c => acc * 10 + (c.toNat - 48)) 0, cs.drop ds.length)

/-- Whether the remainder continues a numeric literal beyond an integer
(floats and exponents are outside the modelled scope). -/
def continuesNumber : List Char → Bool
  | [] => false
  | c :: _ => c == '.' || c == 'e' || c == 'E'

mutual

/-- Fuel-bounded recursive-descent model of Python `json.loads` for one
value, returning the value and the unconsumed remainder. -/
def parseValue : Nat → List Char → Option (JsonValue × List Char)
  | 0, _ => none
  | fuel + 1, cs0 =>
    let cs := cs0.dropWhile pyIsSpace
    match cs with
    | [] => none
    | c :: rest =>
      if c == '"' then
        match parseStringLit rest with
        | some (s, r) => some (.str s, r)
        | none => none
      else if c == 'n' then
        if "ull".data.isPrefixOf rest then some (.null, rest.drop 3) else none
      else if c == 't' then
        if "rue".data.isPrefixOf rest then some (.bool true, rest.drop 3) else none
      else if c == 'f' then
        if "alse".data.isPrefixOf rest then some (.bool false, rest.drop 4) else none
      else if c == '-' then
        match parseDigits rest with
        | some (n, r) => if continuesNumber r then none else some (.num (-(n : Int)), r)
        | none => none
      else if isDigitChar c then
        match parseDigits (c :: rest) with
        | some (n, r) => if continuesNumber r then none else some (.num (n : Int), r)
        | none => none
      else if c == '[' then
        let r := rest.dropWhile pyIsSpace
        match r with
        | ']' :: r2 => some (.arr [], r2)
        | _ =>
          match parseElems fuel r with
          | some (xs, r2) => some (.arr xs, r2)
          | none => none
      else if c == obraceChar then
        let r := rest.dropWhile pyIsSpace
        match r with
        | c2 :: r2 =>
          if c2 == cbraceChar then some (.obj [], r2)
          else
            match parseMembers fuel r with
            | some (ms, r2) => some (.obj ms, r2)
            | none => none
        | [] => none
      else none

/-- Parse the elements of a non-empty JSON array up to and including the
closing bracket. -/
def parseElems : Nat → List Char → Option (List JsonValue × List Char)
  | 0, _ => none
  | fuel + 1, cs =>
    match parseValue fuel cs with
    | some (v, r) =>
      let r := r.dropWhile pyIsSpace
      match r with
      | ',' :: r2 =>
        match parseElems fuel r2 with
        | some (xs, r3) => some (v :: xs, r3)
        | none => none
      | ']' :: r2 => some ([v], r2)
      | _ => none
    | none => none

/-- Parse the members of a non-empty JSON object up to and including the
closing brace. -/
def parseMembers : Nat → List Char → Option (List (String × JsonValue) × List Char)
  | 0, _ => none
  | fuel + 1, cs0 =>
    let cs := cs0.dropWhile pyIsSpace
    match cs with
    | '"' :: rest =>
      match parseStringLit rest with
      | some (k, r) =>
        let r := r.dropWhile pyIsSpace
        match r with
        | ':' :: r2 =>
          match parseValue fuel r2 with
          | some (v, r3) =>
            let r3 := r3.dropWhile pyIsSpace
            match r3 with
            | ',' :: r4 =>
              match parseMembers fuel r4 with
              | some (ms, r5) => some ((k, v) :: ms, r5)
              | none => none
            | c4 :: r4 => if c4 == cbraceChar then some ([(k, v)], r4) else none
            | [] => none
          | none => none
        | _ => none
      | none => none
    | _ => none

end

/-- Model of `json.loads` on a whole string: one value followed by
whitespace only. -/
def jsonParse (s : String) : Option JsonValue :=
  match parseValue (2 * s.data.length + 2) s.data with
  | some (v, rest) => if (rest.dropWhile pyIsSpace).isEmpty then some v else none
  | none => none

/-- Escape a string body for JSON output (quote and backslash; the
serialised queries at issue need nothing further). -/
def jsonEscape (s : String) : String :=
  String.mk (s.data.foldr (fun c acc =>
    if c == '"' || c == '\\' then '\\' :: c :: acc else c :: acc) [])

mutual

/-- Model of Python `json.dumps` with its default separators. -/
def jsonDump : JsonValue → String
  | .null => "null"
  | .bool true => "true"
  | .bool false => "false"
  | .num n => toString n
  | .str s => "\"" ++ jsonEscape s ++ "\""
  | .arr xs => "[" ++ jsonDumpElems xs ++ "]"
  | .obj ms => obrace ++ jsonDumpMembers ms ++ cbrace

/-- Serialise array elements, comma separated. -/
def jsonDumpElems : List JsonValue → String
  | [] => ""
  | [x] => jsonDump x
  | x :: xs => jsonDump x ++ ", " ++ jsonDumpElems xs

/-- Serialise object members, comma separated. -/
def jsonDumpMembers : List (String × JsonValue) → String
  | [] => ""
  | [(k, v)] => "\"" ++ jsonEscape k ++ "\": " ++ jsonDump v
  | (k, v) :: ms => "\"" ++ jsonEscape k ++ "\": " ++ jsonDump v ++ ", " ++ jsonDumpMembers ms

end

mutual

/-- Model of Python `str()` on a value produced by `json.loads`:
dictionaries print as `{'key': value}` with single-quoted strings,
`True`/`False`/`None` for the scalars.  String escaping inside `repr` is
outside the modelled scope (the operator names scanned for contain
none). -/
def pyRepr : JsonValue → String
  | .null => "None"
  | .bool true => "True"
  | .bool false => "False"
  | .num n => toString n
  | .str s => squote ++ s ++ squote
  | .arr xs => "[" ++ pyReprElems xs ++ "]"
  | .obj ms => obrace ++ pyReprMembers ms ++ cbrace

/-- Render list elements, comma separated. -/
def pyReprElems : List JsonValue → String
  | [] => ""
  | [x] => pyRepr x
  | x :: xs => pyRepr x ++ ", " ++ pyReprElems xs

/-- Render dict members, comma separated. -/
def pyReprMembers : List (String × JsonValue) → String
  | [] => ""
  | [(k, v)] => squote ++ k ++ squote ++ ": " ++ pyRepr v
  | (k, v) :: ms => squote ++ k ++ squote ++ ": " ++ pyRepr v ++ ", " ++ pyReprMembers ms

end

end SaasRag

namespace SaasRag.QueryCleaner

/-- Model of `QueryCleaner.clean_mongodb_query` (`query_cleaner.py`,
lines 50-72): markdown extraction, then a `json.loads`/`json.dumps`
round-trip; on a parse failure the best-effort extracted text is returned
with plausibility `false`. -/
def clean_mongodb_query (raw_query : String) : String × Bool :=
  if raw_query.data.isEmpty then ("", false)
  else
    let q := _extract_from_markdown (pyStripL raw_query.data)
    match jsonParse (String.mk q) with
    | some v => (jsonDump v, true)
    | none => (String.mk q, false)

/-- Model of the convenience function `clean_query` (`query_cleaner.py`,
lines 184-193): dispatch on the dialect, with unknown dialects passed
through as implausible. -/
def clean_query (raw_query : String) (db_type : String) : String × Bool :=
  if db_type == "postgresql" then clean_sql_query raw_query
  else if db_type == "mongodb" then clean_mongodb_query raw_query
  else (raw_query, false)

end SaasRag.QueryCleaner

namespace SaasRag.QueryValidator

/-- The `dangerous_ops` set of `QueryValidator.validate_mongodb_query`
(written in source order). -/
def dangerous_ops : List String := ["$merge", "$out", "$update", "$delete", "$drop"]

/-- Model of `QueryValidator.validate_mongodb_query` (`query_validator.py`,
lines 149-173).  The Python signature takes the already-parsed query
object; a non-dictionary argument is rejected up front. -/
def validate_mongodb_query (query : JsonValue) : ValidationResult :=
  match query with
  | .obj members =>
    let query_str := pyRepr (.obj members)
    let errors := dangerous_ops.filterMap (fun op =>
      if isSubL op.data query_str.data then
        some s!"Forbidden MongoDB operation: {op}"
      else none)
    let warnings :=
      if !(members.any (fun m => m.1 == "collection")) then
        ["No collection specified in query"]
      else []
    ⟨errors.isEmpty, errors, warnings, query_str⟩
  | other => ⟨false, ["MongoDB query must be a dictionary"], [], pyRepr other⟩

end SaasRag.QueryValidator

namespace SaasRag.SchemaStore

/-- The metadata of one table document stored in the vector collection by
`SchemaStore.index_schema`: the table name and the JSON-serialised column
list. -/
structure SchemaDoc where
  table_name : String
  columns_json : String
deriving Repr

/-- Python dictionary assignment `d[key] = value` on an insertion-ordered
association list: replace in place or append. -/
def insertReplace : List (String × JsonValue) → String → JsonValue → List (String × JsonValue)
  | [], key, v => [(key, v)]
  | (k0, v0) :: rest, key, v =>
      if k0 == key then (k0, v) :: rest
      else (k0, v0) :: insertReplace rest key v

/-- Model of `SchemaStore.get_relevant_schema` (`schema_store.py`, lines
107-155).  The external similarity-search port is modelled by its outcome:
either an exception or the list of documents it returned; `k` is what the
code forwards to `similarity_search` (the port's contract that at most `k`
documents come back is stated as a hypothesis where needed).  An
uninitialised embeddings backend or a failing search yields the empty
schema. -/
def get_relevant_schema (embeddings_initialized : Bool)
    (search_result : Except String (List SchemaDoc)) (k : Nat := 10) :
    List (String × JsonValue) :=
  let _ := k
  if !embeddings_initialized then []
  else
    match search_result with
    | .error _ => []
    | .ok docs =>
        docs.foldl (fun acc doc =>
          match jsonParse doc.columns_json with
          | some cols => insertReplace acc doc.table_name cols
          | none => acc) []

end SaasRag.SchemaStore

namespace SaasRag.SQLAgent

/-- The validation summary dictionary the agent keeps in
`state["validation_result"]`. -/
structure VRes where
  is_valid : Bool
  errors : List String
  warnings : List String
deriving Repr, DecidableEq

/-- The `AgentState` TypedDict of `sql_agent.py`.  The schema dictionary
is carried only into the prompt, which feeds the external generation port;
since that port is modelled as an oracle over invocation numbers, the
prompt text (and hence the schema and user-query fields beyond their
presence) does not influence the modelled control flow. -/
structure AgentState where
  user_query : String
  db_type : String
  iteration : Nat
  generated_query : String
  validation_result : Option VRes
  execution_error : Option String
  final_query : Option String
  thinking_steps : List String
  is_valid : Bool
deriving Repr, DecidableEq

/-- The external generation port: for each invocation number, either the
raw text the LLM returned or the exception it raised. -/
def LLMOracle : Type := Nat → Except String String

/-- Model of `SQLAgent._generator_node` (`sql_agent.py`, lines 104-169):
on a successful call the cleaned text is stored and the iteration counter
is incremented; on an exception only `execution_error` is set (the counter
is NOT incremented, faithfully to the source `except` branch). -/
def _generator_node (llm : LLMOracle) (calls : Nat) (state : AgentState) : AgentState :=
  let iteration := state.iteration
  match llm calls with
  | .ok raw_query =>
      let cleaned_query := (QueryCleaner.clean_query raw_query state.db_type).1
      let n := iteration + 1
      { state with
        generated_query := cleaned_query
        iteration := n
        thinking_steps := state.thinking_steps ++ [s!"Iteration {n}: Generated query"] }
  | .error e => { state with execution_error := some e }

/-- Model of `SQLAgent._validator_node` (`sql_agent.py`, lines 171-218):
an empty candidate short-circuits; a relational candidate goes through
`QueryValidator.validate` (the agent constructs `QueryValidator()` with an
empty whitelist); a document candidate is only checked for JSON
well-formedness; any other dialect leaves the state unchanged. -/
def _validator_node (state : AgentState) : AgentState :=
  let query := state.generated_query
  if query.data.isEmpty then
    { state with
      validation_result := some ⟨false, ["Empty query generated"], []⟩
      is_valid := false }
  else if state.db_type == "postgresql" then
    let result := QueryValidator.validate [] query state.db_type
    let state :=
      { state with
        validation_result := some ⟨result.is_valid, result.errors, result.warnings⟩
        is_valid := result.is_valid }
    if result.is_valid then
      { state with
        final_query := some result.normalized_query
        thinking_steps := state.thinking_steps ++ ["Validation passed"] }
    else
      let joined := String.intercalate ", " result.errors
      { state with
        thinking_steps := state.thinking_steps ++ [s!"Validation failed: {joined}"] }
  else if state.db_type == "mongodb" then
    match jsonParse query with
    | some _ =>
      { state with
        validation_result := some ⟨true, [], []⟩
        is_valid := true
        final_query := some query
        thinking_steps := state.thinking_steps ++ ["Validation passed"] }
    | none =>
      { state with
        validation_result :=
          some ⟨false, ["Invalid JSON: the candidate does not parse"], []⟩
        is_valid := false
        thinking_steps := state.thinking_steps ++ ["Validation failed: Invalid JSON"] }
  else state

/-- Model of `SQLAgent._critic_node` (`sql_agent.py`, lines 220-231). -/
def _critic_node (state : AgentState) : AgentState :=
  let errors := (state.validation_result.map VRes.errors).getD []
  let error_feedback := String.intercalate "\n" errors
  { state with
    execution_error := some error_feedback
    thinking_steps := state.thinking_steps ++ [s!"Critique: {error_feedback}"] }

/-- The `max_iterations` constant of `SQLAgent._should_retry`. -/
def max_iterations : Nat := 3

/-- Model of `SQLAgent._should_retry` (`sql_agent.py`, lines 233-247):
`true` means route to the critic for another attempt, `false` means the
workflow completes. -/
def _should_retry (state : AgentState) : Bool :=
  if state.is_valid then false
  else if max_iterations ≤ state.iteration then false
  else true

/-- One round of the compiled LangGraph workflow: generator, then
validator (`calls` numbers the generation-port invocation). -/
def workflowRound (llm : LLMOracle) (calls : Nat) (state : AgentState) : AgentState :=
  _validator_node (_generator_node llm calls state)

/-- The workflow loop with a step budget, modelling LangGraph's bounded
execution (`GraphRecursionError` when the budget runs out is `none`).
Each unit of fuel is one generator/validator round; a retry passes through
the critic first. -/
def runWorkflow (llm : LLMOracle) : Nat → Nat → AgentState → Option AgentState
  | 0, _, _ => none
  | fuel + 1, calls, state =>
      let state := workflowRound llm calls state
      if _should_retry state then
        runWorkflow llm fuel (calls + 1) (_critic_node state)
      else some state

/-- The initial `AgentState` built by `SQLAgent.generate_query`. -/
def initialState (user_query db_type : String) : AgentState :=
  { user_query := user_query
    db_type := db_type
    iteration := 0
    generated_query := ""
    validation_result := none
    execution_error := none
    final_query := none
    thinking_steps := []
    is_valid := false }

/-- The result dictionary returned by `SQLAgent.generate_query`. -/
structure AgentResult where
  query : String
  success : Bool
  iterations : Nat
  thinking_steps : List String
  errors : List String
deriving Repr, DecidableEq

/-- Model of `SQLAgent.generate_query` (`sql_agent.py`, lines 249-291):
run the workflow and package the final state; an exception escaping the
workflow (here: the exhausted step budget, LangGraph's
`GraphRecursionError`) is caught and reported as a failed run.  The Python
`or` between `final_query` and `generated_query` also discards an empty
final query. -/
def generate_query (llm : LLMOracle) (fuel : Nat) (user_query : String)
    (db_type : String) : AgentResult :=
  match runWorkflow llm fuel 0 (initialState user_query db_type) with
  | some fs =>
      let q :=
        match fs.final_query with
        | some fq => if fq.data.isEmpty then fs.generated_query else fq
        | none => fs.generated_query
      { query := q
        success := fs.is_valid
        iterations := fs.iteration
        thinking_steps := fs.thinking_steps
        errors := (fs.validation_result.map VRes.errors).getD [] }
  | none =>
      { query := ""
        success := false
        iterations := 0
        thinking_steps := ["Workflow failed"]
        errors := ["GraphRecursionError"] }

end SaasRag.SQLAgent

/-!
Helper lemmas.
-/

namespace SaasRag

/-- The substring test decides the `List.IsInfix` relation. -/
theorem isSubL_iff_infix {pat cs : List Char} : isSubL pat cs = true ↔ pat <:+: cs := by
  induction cs with
  | nil =>
    simp only [isSubL, List.isEmpty_iff]
    constructor
    · rintro rfl; exact List.infix_rfl
    · intro h; exact List.eq_nil_of_infix_nil h
  | cons c rest ih =>
    simp only [isSubL, Bool.or_eq_true, List.isPrefixOf_iff_prefix, ih,
      List.infix_cons_iff]

/-- Uppercasing fixes the whitespace characters. -/
theorem toUpper_of_space {c : Char} (h : pyIsSpace c = true) : c.toUpper = c := by
  simp only [pyIsSpace, Bool.or_eq_true, beq_iff_eq] at h
  rcases h with ((((h | h) | h) | h) | h) | h <;> subst h <;> decide

/-- A space-free pattern that occurs in the uppercased text still occurs
after leading whitespace is dropped. -/
theorem infix_upper_dropWhile {kw : List Char} (hk : ∀ c ∈ kw, pyIsSpace c = false)
    {cs : List Char} (h : kw <:+: upperL cs) :
    kw <:+: upperL (cs.dropWhile pyIsSpace) := by
  induction cs with
  | nil => simpa using h
  | cons c rest ih =>
    by_cases hc : pyIsSpace c = true
    · rw [List.dropWhile_cons_of_pos hc]
      rcases (List.infix_cons_iff.mp (by simpa [upperL] using h)) with hpre | hinf
      · cases kw with
        | nil => exact List.nil_infix
        | cons k kt =>
          have hk2 := (List.cons_prefix_cons.mp hpre).1
          have : pyIsSpace k = false := hk k (by simp)
          rw [hk2, toUpper_of_space hc] at this
          rw [this] at hc
          simp at hc
      · exact ih hinf
    · rw [List.dropWhile_cons_of_neg hc]
      exact h

/-- A space-free pattern that occurs in the uppercased text still occurs
after Python `strip()`. -/
theorem infix_upper_pyStrip {kw : List Char} (hk : ∀ c ∈ kw, pyIsSpace c = false)
    {cs : List Char} (h : kw <:+: upperL cs) :
    kw <:+: upperL (pyStripL cs) := by
  have h1 : kw <:+: upperL (cs.dropWhile pyIsSpace) := infix_upper_dropWhile hk h
  set d := cs.dropWhile pyIsSpace with hd
  have h2 : kw.reverse <:+: upperL d.reverse := by
    rw [upperL, List.map_reverse]
    exact List.IsInfix.reverse h1
  have h3 : kw.reverse <:+: upperL (d.reverse.dropWhile pyIsSpace) :=
    infix_upper_dropWhile (fun c hc => hk c (by simpa using hc)) h2
  have h4 : kw <:+: upperL ((d.reverse.dropWhile pyIsSpace).reverse) := by
    rw [upperL, List.map_reverse]
    have := List.IsInfix.reverse h3
    simpa using this
  exact h4

end SaasRag

namespace SaasRag.QueryValidator

/-- A valid verdict of `validate` implies the forbidden-keyword scan found
nothing. -/
theorem validate_valid_forbidden_none {ats : List String} {q db : String}
    (h : (validate ats q db).is_valid = true) :
    FORBIDDEN_KEYWORDS.find? (fun kw => isSubL kw.data (upperL (pyStripL q.data))) = none := by
  simp only [validate] at h
  repeat' split at h
  all_goals first
    | assumption
    | (exfalso; simp at h)

/-- A valid verdict of `validate` pins down the whole result: no errors,
at most the missing-limit warning, and the formatted text. -/
theorem validate_valid_eq {ats : List String} {q db : String}
    (h : (validate ats q db).is_valid = true) :
    validate ats q db =
      { is_valid := true, errors := [],
        warnings :=
          if (!isSubL "LIMIT".data (upperL (pyStripL q.data))) = true then
            ["Query missing LIMIT clause. May return large result sets."]
          else [],
        normalized_query := String.mk (sqlparse_format (pyStripL q.data)) } := by
  revert h
  simp only [validate]
  repeat' split
  all_goals intro h
  all_goals try (exfalso; simp at h; done)
  all_goals simp_all

end SaasRag.QueryValidator

namespace SaasRag

/-- C1: if `QueryValidator.validate` returns `is_valid = true`, the query
text contains none of the fourteen forbidden keywords, compared
case-insensitively over the whole text — both over the raw input and over
its stripped form actually scanned by the validator. -/
theorem claim_C1_validator_never_approves_forbidden_keyword
    (ats : List String) (q db : String)
    (h : (QueryValidator.validate ats q db).is_valid = true) :
    ∀ kw ∈ QueryValidator.FORBIDDEN_KEYWORDS,
      ¬ (kw.data <:+: upperL q.data) ∧ ¬ (kw.data <:+: upperL (pyStripL q.data)) := by
  intro kw hkw
  have hnone := QueryValidator.validate_valid_forbidden_none h
  have hsub : isSubL kw.data (upperL (pyStripL q.data)) = false := by
    have hx := List.find?_eq_none.mp hnone kw hkw
    simpa using hx
  have hstrip : ¬ kw.data <:+: upperL (pyStripL q.data) := by
    rw [← isSubL_iff_infix, hsub]
    simp
  refine ⟨?_, hstrip⟩
  intro hq
  have hnospace : ∀ kw2 ∈ QueryValidator.FORBIDDEN_KEYWORDS,
      ∀ c ∈ kw2.data, pyIsSpace c = false := by decide
  exact hstrip (infix_upper_pyStrip (hnospace kw hkw) hq)

/-- Witness for C1 at the concrete accepted query `SELECT * FROM users`
and the forbidden keyword `DROP`. -/
theorem claim_C1_witness :
    (QueryValidator.validate [] "SELECT * FROM users" "postgresql").is_valid = true ∧
    ¬ ("DROP".data <:+: upperL "SELECT * FROM users".data) :=
  ⟨by decide,
   (claim_C1_validator_never_approves_forbidden_keyword [] "SELECT * FROM users"
      "postgresql" (by decide) "DROP" (by decide)).1⟩

/-- C2: any input whose stripped text parses into more than one top-level
statement is rejected with exactly the `MULTIPLE_STATEMENTS` error — in
particular no statement-type or forbidden-keyword message, showing the
structural check fires first — and the spec's example
`sElEct * from users; DROP table users;` is rejected that way. -/
theorem claim_C2_multiple_statements_rejected :
    (∀ (ats : List String) (q db : String),
      (pyStripL q.data).isEmpty = false →
      1 < (QueryValidator.sqlparse_parse (pyStripL q.data)).length →
      QueryValidator.validate ats q db =
        { is_valid := false,
          errors := ["Multiple SQL statements detected. Only single statements allowed."],
          warnings := [],
          normalized_query := String.mk (pyStripL q.data) }) ∧
    QueryValidator.validate [] "sElEct * from users; DROP table users;" "postgresql" =
      { is_valid := false,
        errors := ["Multiple SQL statements detected. Only single statements allowed."],
        warnings := [],
        normalized_query := "sElEct * from users; DROP table users;" } := by
  constructor
  · intro ats q db h1 h2
    have hne : (QueryValidator.sqlparse_parse (pyStripL q.data)).isEmpty = false := by
      cases hp : QueryValidator.sqlparse_parse (pyStripL q.data) with
      | nil => rw [hp] at h2; simp at h2
      | cons a l => simp
    simp only [QueryValidator.validate, h1, hne, h2]
    simp
  · decide

/-- Witness for C2: the universal part applied to the spec's example. -/
theorem claim_C2_witness :
    QueryValidator.validate [] "sElEct * from users; DROP table users;" "postgresql" =
      { is_valid := false,
        errors := ["Multiple SQL statements detected. Only single statements allowed."],
        warnings := [],
        normalized_query := "sElEct * from users; DROP table users;" } :=
  claim_C2_multiple_statements_rejected.1 [] "sElEct * from users; DROP table users;"
    "postgresql" (by decide) (by decide)

end SaasRag

namespace SaasRag

/-- C4: for both `QueryValidator.validate` and
`QueryValidator.validate_mongodb_query`, validity is equivalent to an
empty error list — in particular warnings (the only other output list)
never make a result invalid. -/
theorem claim_C4_validity_iff_no_errors :
    (∀ (ats : List String) (q db : String),
      ((QueryValidator.validate ats q db).is_valid = true ↔
        (QueryValidator.validate ats q db).errors = [])) ∧
    (∀ m : JsonValue,
      ((QueryValidator.validate_mongodb_query m).is_valid = true ↔
        (QueryValidator.validate_mongodb_query m).errors = [])) := by
  constructor
  · intro ats q db
    simp only [QueryValidator.validate]
    repeat' split
    all_goals simp
  · intro m
    cases m <;> simp [QueryValidator.validate_mongodb_query]

/-- C7: a relational query accepted by the validator whose stripped
uppercase text has no `LIMIT` substring gets exactly the missing-limit
warning (never a failure); concretely `SELECT * FROM users` is accepted
with that warning, the cleaner passes it through unchanged with
plausibility `true`, and the agent run with a generator returning it
succeeds in one iteration. -/
theorem claim_C7_missing_limit_warning_only :
    (∀ (ats : List String) (q db : String),
      (QueryValidator.validate ats q db).is_valid = true →
      isSubL "LIMIT".data (upperL (pyStripL q.data)) = false →
      (QueryValidator.validate ats q db).warnings =
        ["Query missing LIMIT clause. May return large result sets."]) ∧
    QueryValidator.validate [] "SELECT * FROM users" "postgresql" =
      { is_valid := true, errors := [],
        warnings := ["Query missing LIMIT clause. May return large result sets."],
        normalized_query := "SELECT * FROM users" } ∧
    QueryCleaner.clean_query "SELECT * FROM users" "postgresql" =
      ("SELECT * FROM users", true) ∧
    SQLAgent.generate_query (fun _ => Except.ok "SELECT * FROM users") 25
        "Show me all users" "postgresql" =
      { query := "SELECT * FROM users", success := true, iterations := 1,
        thinking_steps := ["Iteration 1: Generated query", "Validation passed"],
        errors := [] } := by
  refine ⟨?_, by decide, by decide, by decide⟩
  intro ats q db h hl
  rw [QueryValidator.validate_valid_eq h]
  simp [hl]

/-- Witness for C7: the universal part applied to `SELECT * FROM users`. -/
theorem claim_C7_witness :
    (QueryValidator.validate [] "SELECT * FROM users" "postgresql").warnings =
      ["Query missing LIMIT clause. May return large result sets."] :=
  claim_C7_missing_limit_warning_only.1 [] "SELECT * FROM users" "postgresql"
    (by decide) (by decide)

end SaasRag

namespace SaasRag

/-- C10: cleaning the already-clean relational query
`SELECT * FROM users LIMIT 10` returns exactly that string together with
plausibility `true`. -/
theorem claim_C10_cleaning_fixes_clean_query :
    QueryCleaner.clean_sql_query "SELECT * FROM users LIMIT 10" =
      ("SELECT * FROM users LIMIT 10", true) := by decide

/-- C9: the cleaning pipeline is a total function; empty input yields an
empty cleaned string with plausibility `false` for every dialect, and a
document-dialect candidate whose extracted text does not parse as JSON
yields that best-effort text with plausibility `false`. -/
theorem claim_C9_cleaner_total_and_best_effort :
    (∀ db : String, QueryCleaner.clean_query "" db = ("", false)) ∧
    (∀ s : String, s.data ≠ [] →
      jsonParse (String.mk (QueryCleaner._extract_from_markdown (pyStripL s.data))) = none →
      QueryCleaner.clean_query s "mongodb" =
        (String.mk (QueryCleaner._extract_from_markdown (pyStripL s.data)), false)) := by
  constructor
  · intro db
    simp only [QueryCleaner.clean_query]
    split
    · decide
    · split
      · decide
      · rfl
  · intro s hs hp
    have hdb : (("mongodb" : String) == "postgresql") = false := by decide
    simp [QueryCleaner.clean_query, QueryCleaner.clean_mongodb_query, hdb, hs, hp]

/-- Witness for C9: the empty input under the relational dialect and the
unparseable document candidate `not json`. -/
theorem claim_C9_witness :
    QueryCleaner.clean_query "" "postgresql" = ("", false) ∧
    QueryCleaner.clean_query "not json" "mongodb" =
      (String.mk (QueryCleaner._extract_from_markdown (pyStripL "not json".data)), false) :=
  ⟨claim_C9_cleaner_total_and_best_effort.1 "postgresql",
   claim_C9_cleaner_total_and_best_effort.2 "not json" (by decide) (by rfl)⟩

end SaasRag

namespace SaasRag.SchemaStore

/-- Dictionary assignment grows the association list by at most one
entry. -/
theorem insertReplace_length_le (acc : List (String × JsonValue)) (key : String)
    (v : JsonValue) : (insertReplace acc key v).length ≤ acc.length + 1 := by
  induction acc with
  | nil => simp [insertReplace]
  | cons a rest ih =>
    cases a with
    | mk k0 v0 =>
      simp only [insertReplace]
      split
      · simp
      · simpa using Nat.succ_le_succ ih

/-- The schema-reconstruction fold grows the accumulator by at most one
entry per returned document. -/
theorem fold_insert_length_le (docs : List SchemaDoc) (acc : List (String × JsonValue)) :
    (docs.foldl (fun acc doc =>
      match jsonParse doc.columns_json with
      | some cols => insertReplace acc doc.table_name cols
      | none => acc) acc).length ≤ acc.length + docs.length := by
  induction docs generalizing acc with
  | nil => simp
  | cons d ds ih =>
    simp only [List.foldl_cons, List.length_cons]
    refine le_trans (ih _) ?_
    have hstep : (match jsonParse d.columns_json with
        | some cols => insertReplace acc d.table_name cols
        | none => acc).length ≤ acc.length + 1 := by
      cases jsonParse d.columns_json with
      | none => simp
      | some cols => simpa using insertReplace_length_le acc d.table_name cols
    omega

end SaasRag.SchemaStore

namespace SaasRag

/-- C8: when the similarity-search port honours its contract of returning
at most `k` documents, `get_relevant_schema` returns at most `k` tables;
an uninitialised embeddings backend or a failing search (which covers a
missing index) yields the empty schema instead of an error. -/
theorem claim_C8_relevant_schema_bounded_and_fail_open :
    (∀ (emb : Bool) (res : Except String (List SchemaStore.SchemaDoc)) (k : Nat)
       (docs : List SchemaStore.SchemaDoc),
      res = Except.ok docs → docs.length ≤ k →
      (SchemaStore.get_relevant_schema emb res k).length ≤ k) ∧
    (∀ (res : Except String (List SchemaStore.SchemaDoc)) (k : Nat),
      SchemaStore.get_relevant_schema false res k = []) ∧
    (∀ (e : String) (k : Nat),
      SchemaStore.get_relevant_schema true (Except.error e) k = []) := by
  refine ⟨?_, ?_, ?_⟩
  · rintro emb res k docs rfl hk
    cases emb
    · simp [SchemaStore.get_relevant_schema]
    · simp only [SchemaStore.get_relevant_schema, Bool.not_true, Bool.false_eq_true,
        if_false]
      refine le_trans ?_ hk
      simpa using SchemaStore.fold_insert_length_le docs []
  · intro res k
    simp [SchemaStore.get_relevant_schema]
  · intro e k
    simp [SchemaStore.get_relevant_schema]

/-- Witness for C8 at a one-document search result with `k = 1`, an
uninitialised backend, and a failing search. -/
theorem claim_C8_witness :
    (SchemaStore.get_relevant_schema true (Except.ok [⟨"users", "[]"⟩]) 1).length ≤ 1 ∧
    SchemaStore.get_relevant_schema false (Except.ok [⟨"users", "[]"⟩]) 1 = [] ∧
    SchemaStore.get_relevant_schema true (Except.error "search backend down") 1 = [] :=
  ⟨claim_C8_relevant_schema_bounded_and_fail_open.1 true _ 1 _ rfl (by decide),
   claim_C8_relevant_schema_bounded_and_fail_open.2.1 _ 1,
   claim_C8_relevant_schema_bounded_and_fail_open.2.2 "search backend down" 1⟩

end SaasRag

namespace SaasRag

/-- C3 (divergence): with a generation port that raises on every attempt,
`_generator_node` never increments the iteration counter, so the workflow
never reaches a terminal COMPLETE state on its own — for EVERY step budget
the run ends only by exhausting the budget (LangGraph's recursion error),
which `generate_query` reports as a failure with `iterations = 0`.  When
every generation attempt succeeds, the iteration bound of 3 does hold
(the always-rejected `DELETE FROM users` run stops after 3 attempts). -/
theorem claim_C3_exception_loop_never_completes :
    (∀ (fuel calls : Nat) (st : SQLAgent.AgentState),
      st.generated_query = "" → st.iteration = 0 →
      SQLAgent.runWorkflow (fun _ => Except.error "LLM unavailable") fuel calls st = none) ∧
    SQLAgent.generate_query (fun _ => Except.error "LLM unavailable") 25 "q" "postgresql" =
      { query := "", success := false, iterations := 0,
        thinking_steps := ["Workflow failed"], errors := ["GraphRecursionError"] } ∧
    (SQLAgent.generate_query (fun _ => Except.ok "DELETE FROM users") 25 "q"
        "postgresql").iterations = 3 := by
  refine ⟨?_, by decide, by decide⟩
  intro fuel
  induction fuel with
  | zero => intro calls st h1 h2; rfl
  | succ n ih =>
    intro calls st h1 h2
    have hg : SQLAgent._generator_node (fun _ => Except.error "LLM unavailable") calls st =
        { st with execution_error := some "LLM unavailable" } := rfl
    have hv : SQLAgent._validator_node { st with execution_error := some "LLM unavailable" } =
        { st with
          execution_error := some "LLM unavailable"
          validation_result := some ⟨false, ["Empty query generated"], []⟩
          is_valid := false } := by
      simp [SQLAgent._validator_node, h1]
    have hr : SQLAgent._should_retry
        { st with
          execution_error := some "LLM unavailable"
          validation_result := some ⟨false, ["Empty query generated"], []⟩
          is_valid := false } = true := by
      simp [SQLAgent._should_retry, SQLAgent.max_iterations, h2]
    simp only [SQLAgent.runWorkflow, SQLAgent.workflowRound, hg, hv, hr, if_true]
    exact ih (calls + 1) _ (by simp [SQLAgent._critic_node, h1])
      (by simp [SQLAgent._critic_node, h2])

/-- Witness for C3's universal part: ten full rounds with an always-raising
port leave the workflow incomplete. -/
theorem claim_C3_witness :
    SQLAgent.runWorkflow (fun _ => Except.error "LLM unavailable") 10 0
      (SQLAgent.initialState "q" "postgresql") = none :=
  claim_C3_exception_loop_never_completes.1 10 0 _ rfl rfl

/-- C5 (divergence): the agent's document-dialect validation gate accepts
the banned-operator candidate `{"collection": "users", "$delete": 1}` —
the full run reports success with that query — even though
`QueryValidator.validate_mongodb_query` (never invoked by the agent)
rejects exactly that object with a forbidden-operation error. -/
theorem claim_C5_mongodb_gate_accepts_banned_operator :
    SQLAgent.generate_query
        (fun _ => Except.ok "\x7b\"collection\": \"users\", \"$delete\": 1\x7d") 25
        "q" "mongodb" =
      { query := "\x7b\"collection\": \"users\", \"$delete\": 1\x7d", success := true,
        iterations := 1,
        thinking_steps := ["Iteration 1: Generated query", "Validation passed"],
        errors := [] } ∧
    QueryValidator.validate_mongodb_query
        (JsonValue.obj [("collection", .str "users"), ("$delete", .num 1)]) =
      { is_valid := false, errors := ["Forbidden MongoDB operation: $delete"],
        warnings := [],
        normalized_query :=
          pyRepr (JsonValue.obj [("collection", .str "users"), ("$delete", .num 1)]) } ∧
    jsonParse "\x7b\"collection\": \"users\", \"$delete\": 1\x7d" =
      some (JsonValue.obj [("collection", .str "users"), ("$delete", .num 1)]) := by
  refine ⟨by decide, by decide, by rfl⟩

/-- C6 (counterexample): the implausible candidate `foobar; barfoo;` (the
cleaner returns plausibility `false` for it) is NOT short-circuited by the
validator step: the structural parse layer runs and produces its
multiple-statements verdict, also when reached through a full generator
round. -/
theorem claim_C6_counterexample_implausible_candidate_validated :
    QueryCleaner.clean_query "foobar; barfoo;" "postgresql" = ("foobar; barfoo;", false) ∧
    (SQLAgent._validator_node { SQLAgent.initialState "q" "postgresql" with
        generated_query := "foobar; barfoo;", iteration := 1 }).validation_result =
      some ⟨false, ["Multiple SQL statements detected. Only single statements allowed."], []⟩ ∧
    (SQLAgent.workflowRound (fun _ => Except.ok "foobar; barfoo;") 0
        (SQLAgent.initialState "q" "postgresql")).validation_result =
      some ⟨false, ["Multiple SQL statements detected. Only single statements allowed."], []⟩ := by
  refine ⟨by decide, by decide, by decide⟩

/-- C6 (amended): an EMPTY candidate short-circuits the validator step to
an immediate failure without invoking any validator layer (its verdict is
the short-circuit record, whose message even differs from what
`QueryValidator.validate` would produce on the empty string), and a round
whose generator returns the empty string counts as exactly one
iteration. -/
theorem claim_C6_empty_candidate_short_circuits :
    (∀ st : SQLAgent.AgentState, st.generated_query = "" →
      SQLAgent._validator_node st =
        { st with
          validation_result := some ⟨false, ["Empty query generated"], []⟩
          is_valid := false }) ∧
    (SQLAgent.workflowRound (fun _ => Except.ok "") 0
        (SQLAgent.initialState "q" "postgresql")).iteration = 1 ∧
    (SQLAgent.workflowRound (fun _ => Except.ok "") 0
        (SQLAgent.initialState "q" "postgresql")).validation_result =
      some ⟨false, ["Empty query generated"], []⟩ ∧
    ["Empty query generated"] ≠ (QueryValidator.validate [] "" "postgresql").errors := by
  refine ⟨?_, by decide, by decide, by decide⟩
  intro st h
  simp [SQLAgent._validator_node, h]

/-- Witness for C6's amended universal part at the initial state. -/
theorem claim_C6_witness :
    SQLAgent._validator_node (SQLAgent.initialState "q" "postgresql") =
      { SQLAgent.initialState "q" "postgresql" with
        validation_result := some ⟨false, ["Empty query generated"], []⟩
        is_valid := false } :=
  claim_C6_empty_candidate_short_circuits.1 _ rfl

end SaasRag
